import Mathlib

/-!
Verification development for the YouTube sidecar worker
(source: src/sidecar/index.ts).

The sidecar is a line-oriented JSON-RPC worker.  This file gives a shallow
embedding of its pure parsing helpers (parseCount, parseSuperchatAmount),
of the per-request dispatcher (handleRequest) as a pure state-passing
function over an oracle environment for the network calls, and of the
request loop (main) as a fold over pre-decoded input lines.

JavaScript numbers are modelled exactly: finite values as rationals, NaN as
the missing case of an Option (IEEE double rounding is abstracted away;
all concrete values appearing in theorems are exactly representable).
-/

set_option autoImplicit false

namespace Sidecar

/-- Characters matched by the JavaScript regex class \s (ECMAScript
WhiteSpace and LineTerminator), which is also the character set removed by
String.prototype.trim. -/
def isJsSpace (c : Char) : Bool :=
  c = ' ' || c = '\t' || c = '\n' || c = '\r' || c = '\x0b' || c = '\x0c' ||
  c = ' ' || c = ' ' || (' ' ≤ c && c ≤ ' ') ||
  c = ' ' || c = ' ' || c = ' ' || c = ' ' ||
  c = '　' || c = '﻿'

/-- Numeric value of a list of decimal digit characters, most significant
first (the empty list gives 0). -/
def digitsToNat (ds : List Char) : ℕ :=
  ds.foldl (fun acc c => 10 * acc + (c.toNat - '0'.toNat)) 0

/-- Model of the string .replace(/,/g, "") step: drop every comma. -/
def stripCommas (l : List Char) : List Char :=
  l.filter (fun c => c ≠ ',')

/-- Model of Math.floor on a finite JavaScript number: the floor of the
rational, computed by floor division of numerator by denominator. -/
def jsFloor (q : ℚ) : ℤ :=
  q.num.fdiv (q.den : ℤ)

/-- Model of Number.parseFloat restricted to strings over digits and dots,
which is the only shape the sidecar ever feeds it (regex-captured tails
with commas, and possibly some dots, already removed).  parseFloat reads
leading digits, then at most one dot followed by digits, and is NaN
(modelled as none) exactly when no digit was read. -/
def jsParseFloatDD (cs : List Char) : Option ℚ :=
  let intPart := cs.takeWhile Char.isDigit
  let rest := cs.dropWhile Char.isDigit
  match rest with
  | '.' :: r =>
    let fracPart := r.takeWhile Char.isDigit
    if intPart.isEmpty && fracPart.isEmpty then none
    else some (Rat.divInt
      (digitsToNat intPart * 10 ^ fracPart.length + digitsToNat fracPart : ℕ)
      (10 ^ fracPart.length : ℕ))
  | _ => if intPart.isEmpty then none else some (Rat.divInt (digitsToNat intPart : ℕ) 1)

/-- Model of Number.parseInt(s, 10): skip leading whitespace, read an
optional sign and then leading decimal digits; NaN (none) when no digit
was read. -/
def jsParseInt (cs : List Char) : Option ℤ :=
  let cs := cs.dropWhile isJsSpace
  match cs with
  | '-' :: r =>
    let ds := r.takeWhile Char.isDigit
    if ds.isEmpty then none else some (-(digitsToNat ds : ℤ))
  | '+' :: r =>
    let ds := r.takeWhile Char.isDigit
    if ds.isEmpty then none else some (digitsToNat ds : ℤ)
  | _ =>
    let ds := cs.takeWhile Char.isDigit
    if ds.isEmpty then none else some (digitsToNat ds : ℤ)

/-- Model of String.prototype.trim: drop JS whitespace from both ends. -/
def jsTrim (l : List Char) : List Char :=
  ((l.dropWhile isJsSpace).reverse.dropWhile isJsSpace).reverse

/-- Model of String.prototype.includes: the needle occurs as a contiguous
substring of the haystack. -/
def strContains (hay needle : List Char) : Bool :=
  hay.tails.any (fun t => needle.isPrefixOf t)

/-- First match of a one-character-class plus regex (such as [\d.]+ or
[\d,]+) in a string: scan left to right for the first character satisfying
p, return the maximal run from there together with the remainder of the
string after the run.  none when no character satisfies p. -/
def firstRunAfter (p : Char → Bool) : List Char → Option (List Char × List Char)
  | [] => none
  | c :: rest =>
    if p c then some ((c :: rest).takeWhile p, (c :: rest).dropWhile p)
    else firstRunAfter p rest

/-! ## parseCount (src/sidecar/index.ts lines 114-129) -/

/-- Character class [\d.] used by the parseCount regex. -/
def isDigitDot (c : Char) : Bool :=
  c.isDigit || c = '.'

/-- Character class [KMB万億] of the parseCount regex under the i flag. -/
def isCountSuffix (c : Char) : Bool :=
  c = 'K' || c = 'k' || c = 'M' || c = 'm' || c = 'B' || c = 'b' ||
  c = '万' || c = '億'

/-- Multiplier chosen by the suffix if-chain of parseCount. -/
def scaleOf (suffix : Option Char) : ℚ :=
  if suffix = some 'K' ∨ suffix = some 'k' then 1000
  else if suffix = some 'M' ∨ suffix = some 'm' then 1000000
  else if suffix = some 'B' ∨ suffix = some 'b' then 1000000000
  else if suffix = some '万' then 10000
  else if suffix = some '億' then 100000000
  else 1

/-- Model of parseCount: strip commas, find the first match of
([\d.]+)([KMB万億])? (case-insensitive), parseFloat the numeric group,
multiply by the suffix scale and floor.  No match gives 0; a NaN numeric
group propagates as none. -/
def parseCount (str : String) : Option ℤ :=
  let cleaned := stripCommas str.data
  match firstRunAfter isDigitDot cleaned with
  | none => some 0
  | some (run, after) =>
    let suffix : Option Char :=
      match after with
      | c :: _ => if isCountSuffix c then some c else none
      | [] => none
    (jsParseFloatDD run).map (fun q => jsFloor (q * scaleOf suffix))

/-! ## parseSuperchatAmount (src/sidecar/index.ts lines 131-160) -/

/-- Character class [^\d\s] of the currency group. -/
def isCurrencyChar (c : Char) : Bool :=
  !c.isDigit && !isJsSpace c

/-- Character class [\d,.] of the amount group. -/
def isAmountChar (c : Char) : Bool :=
  c.isDigit || c = ',' || c = '.'

/-- Tail of the amount regex after the currency group: \s*([\d,.]+).
Whitespace is greedy; since whitespace and amount characters are disjoint
only the maximal whitespace run can be followed by a valid amount group,
so no backtracking inside the tail is needed. -/
def matchTail (l : List Char) : Option (List Char) :=
  let rest := l.dropWhile isJsSpace
  match rest with
  | c :: _ => if isAmountChar c then some (rest.takeWhile isAmountChar) else none
  | [] => none

/-- Backtracking over the greedy currency group ([^\d\s]+): try the whole
run first, then hand characters back from its right end one at a time
(a handed-back comma or dot can start the amount group). -/
def backtrack : List Char → List Char → Option (List Char × List Char)
  | [], _ => none
  | c :: g1rev, rest =>
    match matchTail rest with
    | some g2 => some ((c :: g1rev).reverse, g2)
    | none => backtrack g1rev (c :: rest)

/-- First match of ([^\d\s]+)\s*([\d,.]+) in a string, with the leftmost
start position and JavaScript backtracking semantics; returns the two
capture groups. -/
def scanMatch : List Char → Option (List Char × List Char)
  | [] => none
  | c :: rest =>
    if isCurrencyChar c then
      match backtrack ((c :: rest).takeWhile isCurrencyChar).reverse
          ((c :: rest).dropWhile isCurrencyChar) with
      | some r => some r
      | none => scanMatch rest
    else scanMatch rest

/-- Test used by the lookahead (?=\d{3}): the next three characters exist
and are digits. -/
def threeDigitsNext : List Char → Bool
  | a :: b :: c :: _ => a.isDigit && b.isDigit && c.isDigit
  | _ => false

/-- Model of the .replace(/\.(?=\d{3})/g, "") step: remove every dot that
is followed by (at least) three digits; the lookahead consumes nothing, so
scanning resumes right after each removed dot. -/
def stripThousandsDots : List Char → List Char
  | [] => []
  | c :: rest =>
    if c = '.' && threeDigitsNext rest then stripThousandsDots rest
    else c :: stripThousandsDots rest

/-- The fixed symbol-to-ISO currency table of parseSuperchatAmount. -/
def currencyPairs : List (String × String) :=
  [("¥", "JPY"), ("$", "USD"), ("€", "EUR"), ("£", "GBP"), ("₩", "KRW"),
   ("₹", "INR"), ("CA$", "CAD"), ("A$", "AUD"), ("HK$", "HKD"), ("NT$", "TWD")]

/-- Lookup in the currency table (undefined when the symbol is absent). -/
def currencyLookup (sym : String) : Option String :=
  (currencyPairs.find? (fun p => sym = p.1)).map Prod.snd

/-- Result record of parseSuperchatAmount; amount is none when the
JavaScript computation yields NaN. -/
structure SCAmount where
  amount : Option ℤ
  currency : String
  deriving DecidableEq, Repr

/-- Model of parseSuperchatAmount: match currency symbol and numeric tail,
strip commas, strip dots acting as thousands separators, parseFloat and
floor; unmatched input gives amount 0 with fallback currency JPY, and an
unknown symbol falls back to JPY. -/
def parseSuperchatAmount (purchaseAmount : String) : SCAmount :=
  match scanMatch purchaseAmount.data with
  | none => ⟨some 0, "JPY"⟩
  | some (g1, g2) =>
    let currencySymbol := String.mk (jsTrim g1)
    let amountStr := stripThousandsDots (stripCommas g2)
    ⟨(jsParseFloatDD amountStr).map jsFloor,
     (currencyLookup currencySymbol).getD "JPY"⟩

/-! ## RPC data model (src/sidecar/index.ts lines 4-45) -/

/-- Request parameters; the worker only ever reads the string fields
videoId, channelId and cookies out of the params object. -/
structure RpcParams where
  videoId : Option String := none
  channelId : Option String := none
  cookies : Option String := none
  deriving DecidableEq, Repr

/-- RpcRequest {id, method, params?}. -/
structure RpcRequest where
  id : ℕ
  method : String
  params : Option RpcParams := none
  deriving DecidableEq, Repr

/-- LiveInfo as assembled by getLiveInfo; concurrentViewers is none when
the JavaScript computation yields NaN. -/
structure LiveInfo where
  videoId : String
  title : String
  channelId : String
  channelName : String
  concurrentViewers : Option ℤ
  likeCount : ℤ
  isLive : Bool
  deriving DecidableEq, Repr

/-- Result payloads the dispatcher can place in a response. -/
inductive RpcValue where
  /-- init result {success: true, authenticated}. -/
  | initResult (authenticated : Bool)
  /-- plain {success: true} result of setCookies, startLiveChat, stopLiveChat. -/
  | okResult
  /-- getLiveInfo result. -/
  | liveInfo (info : LiveInfo)
  /-- subscriber-count result {count}; none models a NaN count. -/
  | countResult (count : Option ℤ)
  /-- ping result {pong: true, timestamp}. -/
  | pong (timestamp : ℕ)
  deriving DecidableEq, Repr

/-- RpcResponse {id, result?, error?}. -/
structure RpcResponse where
  id : ℕ
  result : Option RpcValue
  error : Option String
  deriving DecidableEq, Repr

/-- Mutable module-level state of the worker: the youtube client handle
(modelled by whether it has been created), the stored cookies, and the
video id of the live-chat instance currently held, if any. -/
structure SidecarState where
  youtube : Bool
  storedCookies : Option String
  liveChatInstance : Option String
  deriving DecidableEq, Repr

/-- Platform operations the worker can perform against youtubei.js; used
as an effect trace so that theorems can state that a request performed no
platform call. -/
inductive PlatformCall where
  /-- Innertube.create, with or without stored cookies. -/
  | create (withCookies : Bool)
  /-- youtube.getInfo(videoId). -/
  | getInfo (videoId : String)
  /-- youtube.getChannel(channelId). -/
  | getChannel (channelId : String)
  /-- youtube.actions.execute of the channel-dashboard analytics endpoint. -/
  | analytics
  /-- liveChatInstance.stop() on the instance for this video id. -/
  | chatStop (videoId : String)
  /-- liveChat.start() for this video id. -/
  | chatStart (videoId : String)
  deriving DecidableEq, Repr

/-! ## Duck-typed upstream response shapes -/

/-- A JavaScript value probed as string | {text?: string} | undefined by
the getText helper inside getLiveInfo. -/
inductive JsTextVal where
  | undef
  | str (s : String)
  | obj (text : Option String)
  deriving DecidableEq, Repr

/-- Model of the getText helper: undefined and the empty string are falsy
and give undefined; an object is truthy and yields its text field. -/
def getText : JsTextVal → Option String
  | .undef => none
  | .str s => if s = "" then none else some s
  | .obj t => t

/-- JavaScript a || b on optional strings: keep a unless it is undefined
or empty. -/
def jsOrStr : Option String → Option String → Option String
  | some s, b => if s = "" then b else some s
  | none, b => b

/-- The view_count object probed by getLiveInfo (primary_info view data),
with its original_view_count and view_count fields and its toString
rendering. -/
structure ViewCountData where
  originalViewCount : JsTextVal
  viewCount : JsTextVal
  toStr : String
  deriving DecidableEq, Repr

/-- Shape of a youtube.getInfo result as consumed by getLiveInfo:
basic_info fields plus the optional primary_info view-count object. -/
structure VideoInfo where
  viewCountData : Option ViewCountData
  title : Option String
  channelId : Option String
  author : Option String
  likeCount : Option ℤ
  isLive : Option Bool
  deriving DecidableEq, Repr

/-- Character class [\d,] of the view-count regex. -/
def isDigitComma (c : Char) : Bool :=
  c.isDigit || c = ','

/-- Concurrent-viewer extraction of getLiveInfo: take the first truthy
text among original_view_count, view_count and toString, find the first
[\d,]+ run in it, strip commas and parseInt; every missing stage leaves
the initial value 0. -/
def concurrentViewersOf (v : VideoInfo) : Option ℤ :=
  match v.viewCountData with
  | none => some 0
  | some vcd =>
    match jsOrStr (jsOrStr (getText vcd.originalViewCount) (getText vcd.viewCount))
        (some vcd.toStr) with
    | none => some 0
    | some txt =>
      if txt = "" then some 0
      else
        match firstRunAfter isDigitComma txt.data with
        | none => some 0
        | some (run, _) => jsParseInt (stripCommas run)

/-- LiveInfo assembly of getLiveInfo from a successful getInfo result. -/
def buildLiveInfo (videoId : String) (v : VideoInfo) : LiveInfo where
  videoId := videoId
  title := v.title.getD ""
  channelId := v.channelId.getD ""
  channelName := v.author.getD ""
  concurrentViewers := concurrentViewersOf v
  likeCount := v.likeCount.getD 0
  isLive := v.isLive.getD false

/-- One metadata part of a channel header row: the part.text?.text value. -/
structure MetadataRow where
  parts : Option (List (Option String))
  deriving DecidableEq, Repr

/-- Shape of a youtube.getChannel result as consumed by
getChannelSubscriberCount: the header.content.metadata.metadata_rows
chain collapsed to its optional row list, and the legacy
metadata.subscriber_count field. -/
structure ChannelData where
  metadataRows : Option (List MetadataRow)
  subscriberCountText : Option String
  deriving DecidableEq, Repr

/-- Row scan of getChannelSubscriberCount: the first part text (row-major)
that contains the substring "subscriber". -/
def findSubText (rows : List MetadataRow) : Option String :=
  rows.findSome? (fun row =>
    ((row.parts.getD []).map (fun t => t.getD "")).find?
      (fun text => strContains text.data "subscriber".data))

/-- One metric of the analytics channelAnalyticsCard: subtitle runs and
metric runs, each run carrying an optional text. -/
structure AnalyticsMetric where
  subtitleRuns : Option (List (Option String))
  metricRuns : Option (List (Option String))
  deriving DecidableEq, Repr

/-- The subscriberCount object of a channelAnalyticsCard. -/
structure AnalyticsSubCount where
  subscriberCount : Option String
  deriving DecidableEq, Repr

/-- A channelAnalyticsCard: its optional subscriberCount object and its
optional metrics array. -/
structure AnalyticsCard where
  subscriberCount : Option AnalyticsSubCount
  metrics : Option (List AnalyticsMetric)
  deriving DecidableEq, Repr

/-- Shape of the channel-dashboard analytics response: an optional cards
array whose entries optionally carry a channelAnalyticsCard. -/
structure AnalyticsData where
  cards : Option (List (Option AnalyticsCard))
  deriving DecidableEq, Repr

/-- JavaScript runs?.map((r) => r.text).join("") with undefined texts
joined as empty, and undefined runs giving "" via the trailing two-arg or. -/
def runsJoin (runs : Option (List (Option String))) : String :=
  match runs with
  | none => ""
  | some rs => String.join (rs.map (fun o => o.getD ""))

/-- Metrics-array scan of getExactSubscriberCount: a metric counts when
its lowercased subtitle contains "subscriber" and its comma-stripped
metric text parses to a non-NaN integer. -/
def findInMetric (m : AnalyticsMetric) : Option ℤ :=
  let subtitleText := (runsJoin m.subtitleRuns).data.map Char.toLower
  if strContains subtitleText "subscriber".data then
    jsParseInt (stripCommas (runsJoin m.metricRuns).data)
  else none

/-- Card scan of getExactSubscriberCount: a truthy direct subscriberCount
string is parseInt-ed unchecked (so it may yield NaN); otherwise the
metrics array is scanned. -/
def findInCard (c : AnalyticsCard) : Option (Option ℤ) :=
  let metricsFind : Option (Option ℤ) :=
    ((c.metrics.getD []).findSome? findInMetric).map some
  match c.subscriberCount with
  | some sc =>
    match sc.subscriberCount with
    | some s => if s = "" then metricsFind else some (jsParseInt s.data)
    | none => metricsFind
  | none => metricsFind

/-- Cards-loop of getExactSubscriberCount over the optional cards array. -/
def findInCards (cards : List (Option AnalyticsCard)) : Option (Option ℤ) :=
  cards.findSome? (fun oc => oc.bind findInCard)

/-! ## The dispatcher (src/sidecar/index.ts lines 47-112, 167-415) -/

/-- Oracle for the asynchronous youtubei.js calls: each operation either
returns a value of the consumed shape or throws with a message. -/
structure Env where
  create : Bool → Except String Unit
  getInfo : String → Except String VideoInfo
  getChannel : String → Except String ChannelData
  analytics : Except String AnalyticsData
  now : ℕ

/-- The request.params?.videoId as string with the falsy check collapsed:
a missing params object, a missing field and an empty string all read back
as the empty string. -/
def paramVideoId (ps : Option RpcParams) : String :=
  (ps.bind RpcParams.videoId).getD ""

/-- The request.params?.channelId as string, falsy-collapsed. -/
def paramChannelId (ps : Option RpcParams) : String :=
  (ps.bind RpcParams.channelId).getD ""

/-- The request.params?.cookies as string, falsy-collapsed. -/
def paramCookies (ps : Option RpcParams) : String :=
  (ps.bind RpcParams.cookies).getD ""

/-- Body of getChannelSubscriberCount after the youtube guard: fetch the
channel, scan header metadata rows for a subscriber text, fall back to the
legacy metadata.subscriber_count when truthy, and degrade to 0 on a fetch
failure or when nothing is found. -/
def subCountOf (env : Env) (channelId : String) : Option ℤ :=
  match env.getChannel channelId with
  | .error _ => some 0
  | .ok ch =>
    match findSubText (ch.metadataRows.getD []) with
    | some text => parseCount text
    | none =>
      match ch.subscriberCountText with
      | none => some 0
      | some s => if s = "" then some 0 else parseCount s

/-- The try-block of handleRequest: the switch over the method name.
Returns the updated worker state, the trace of platform calls performed,
and either the computed result or the thrown error message. -/
def runMethod (env : Env) (st : SidecarState) (req : RpcRequest) :
    SidecarState × List PlatformCall × Except String RpcValue :=
  if req.method = "init" then
    let withCookies := st.storedCookies.isSome
    match env.create withCookies with
    | .ok _ => ({ st with youtube := true }, [.create withCookies],
        .ok (.initResult withCookies))
    | .error e => (st, [.create withCookies], .error e)
  else if req.method = "setCookies" then
    let cookies := paramCookies req.params
    if cookies = "" then (st, [], .error "cookies is required")
    else ({ st with storedCookies := some cookies }, [], .ok .okResult)
  else if req.method = "getLiveInfo" then
    let videoId := paramVideoId req.params
    if videoId = "" then (st, [], .error "videoId is required")
    else if st.youtube = true then
      match env.getInfo videoId with
      | .error e => (st, [.getInfo videoId], .error e)
      | .ok info => (st, [.getInfo videoId], .ok (.liveInfo (buildLiveInfo videoId info)))
    else (st, [], .error "YouTube client not initialized")
  else if req.method = "getSubscriberCount" then
    let channelId := paramChannelId req.params
    if channelId = "" then (st, [], .error "channelId is required")
    else if st.youtube = true then
      (st, [.getChannel channelId], .ok (.countResult (subCountOf env channelId)))
    else (st, [], .error "YouTube client not initialized")
  else if req.method = "getExactSubscriberCount" then
    if st.youtube = true then
      if st.storedCookies = none then
        (st, [], .error "Authentication required for exact subscriber count")
      else
        match env.analytics with
        | .error e => (st, [.analytics], .error e)
        | .ok d =>
          match findInCards (d.cards.getD []) with
          | some n => (st, [.analytics], .ok (.countResult n))
          | none => (st, [.analytics],
              .error "Could not find subscriber count in analytics data")
    else (st, [], .error "YouTube client not initialized")
  else if req.method = "startLiveChat" then
    let videoId := paramVideoId req.params
    if videoId = "" then (st, [], .error "videoId is required")
    else if st.youtube = true then
      let stopped :=
        match st.liveChatInstance with
        | some v => ({ st with liveChatInstance := none }, [PlatformCall.chatStop v])
        | none => (st, ([] : List PlatformCall))
      match env.getInfo videoId with
      | .error e => (stopped.1, stopped.2 ++ [.getInfo videoId], .error e)
      | .ok _ => ({ stopped.1 with liveChatInstance := some videoId },
          stopped.2 ++ [.getInfo videoId, .chatStart videoId], .ok .okResult)
    else (st, [], .error "YouTube client not initialized")
  else if req.method = "stopLiveChat" then
    match st.liveChatInstance with
    | some v => ({ st with liveChatInstance := none }, [.chatStop v], .ok .okResult)
    | none => (st, [], .ok .okResult)
  else if req.method = "ping" then
    (st, [], .ok (.pong env.now))
  else (st, [], .error ("Unknown method: " ++ req.method))

/-- Model of handleRequest: run the switch and wrap its outcome in a
response with the request id, result on success and the thrown message as
error on failure. -/
def handleRequest (env : Env) (st : SidecarState) (req : RpcRequest) :
    SidecarState × List PlatformCall × RpcResponse :=
  match runMethod env st req with
  | (st1, tr, .ok v) => (st1, tr, ⟨req.id, some v, none⟩)
  | (st1, tr, .error e) => (st1, tr, ⟨req.id, none, some e⟩)

/-- Model of the request loop of main over pre-decoded input lines: a line
is the outcome of JSON.parse, none when the line failed to parse (the
catch logs and continues without writing anything), some request when it
parsed (handleRequest runs and its response is written). -/
def processLines (env : Env) : SidecarState → List (Option RpcRequest) →
    SidecarState × List RpcResponse
  | st, [] => (st, [])
  | st, none :: rest => processLines env st rest
  | st, some req :: rest =>
    match handleRequest env st req with
    | (st1, _, resp) =>
      match processLines env st1 rest with
      | (st2, resps) => (st2, resp :: resps)

/-- The eight method names recognized by the switch of handleRequest. -/
def knownMethods : List String :=
  ["init", "setCookies", "getLiveInfo", "getSubscriberCount",
   "getExactSubscriberCount", "startLiveChat", "stopLiveChat", "ping"]

/-! ## Spec-side definitions

Definitions in this section follow the words of the specification and of
the claims rather than the source; they exist to be compared with the
source-derived definitions above. -/

/-- Position-based reading of the dot-stripping rule as the code actually
behaves: the character at position i is removed when it is a dot and at
least three digits follow it immediately. -/
def dotRemovedAt (cs : List Char) (i : ℕ) : Bool :=
  decide (cs[i]? = some '.') && threeDigitsNext (cs.drop (i + 1))

/-- Position-based dot stripping: keep exactly the characters at positions
that are not a dot followed by three or more digits. -/
def specStripDots (cs : List Char) : List Char :=
  (List.range cs.length).filterMap
    (fun i => if dotRemovedAt cs i then none else cs[i]?)

/-- Reading of the claim wording for the dot rule: the next three
characters are digits and the character after them, if any, is not a
digit, so the dot is followed by exactly three digits. -/
def exactlyThreeDigitsNext : List Char → Bool
  | a :: b :: c :: rest =>
    a.isDigit && b.isDigit && c.isDigit &&
      !(match rest with
        | d :: _ => d.isDigit
        | [] => false)
  | _ => false

/-- Dot stripping as the claim words it: remove a dot only when it is
followed by exactly three digits, keep it otherwise. -/
def claimStripDots : List Char → List Char
  | [] => []
  | c :: rest =>
    if (c = '.') && exactlyThreeDigitsNext rest then claimStripDots rest
    else c :: claimStripDots rest

/-- Suffix table of the claim wording for parseCount: 1000 for K or k,
a million for M or m, a billion for B or b, ten thousand for 万 and a
hundred million for 億. -/
def suffixScaleTable : List (Char × ℚ) :=
  [('K', 1000), ('k', 1000), ('M', 1000000), ('m', 1000000),
   ('B', 1000000000), ('b', 1000000000), ('万', 10000), ('億', 100000000)]

/-- Claim-worded parseCount (amended): strip commas, take the first run of
digit-or-dot characters, read it as a JavaScript decimal number (NaN when
the run holds no digit), scale by the suffix character immediately after
the run looked up in the table (1 when absent or unknown), and floor; a
string with no digit-or-dot character at all gives 0. -/
def parseCountSpec (str : String) : Option ℤ :=
  let cleaned := stripCommas str.data
  match cleaned.dropWhile (fun c => !isDigitDot c) with
  | [] => some 0
  | l =>
    let run := l.takeWhile isDigitDot
    let after := l.dropWhile isDigitDot
    let scale : ℚ :=
      match after with
      | [] => 1
      | c :: _ => ((suffixScaleTable.find? (fun p => c = p.1)).map Prod.snd).getD 1
    (jsParseFloatDD run).map (fun q => jsFloor (q * scale))

/-- A concrete oracle environment for witnesses: creation succeeds and
every network fetch fails. -/
def sampleEnv : Env where
  create := fun _ => .ok ()
  getInfo := fun _ => .error "network unavailable"
  getChannel := fun _ => .error "network unavailable"
  analytics := .error "network unavailable"
  now := 0

/-! ## Helper lemmas -/

/-- Shifting the position by one past the head is the same as testing the
tail. -/
theorem dotRemovedAt_succ (c : Char) (rest : List Char) (i : ℕ) :
    dotRemovedAt (c :: rest) (i + 1) = dotRemovedAt rest i := by
  simp [dotRemovedAt, List.getElem?_cons_succ, List.drop_succ_cons]

/-- Unfolding of the position-based stripping on a cons cell. -/
theorem specStripDots_cons (c : Char) (rest : List Char) :
    specStripDots (c :: rest) =
      (if (c = '.') && threeDigitsNext rest then [] else [c]) ++ specStripDots rest := by
  unfold specStripDots
  rw [List.length_cons, List.range_succ_eq_map, List.filterMap_cons, List.filterMap_map]
  have hf : ((fun i => if dotRemovedAt (c :: rest) i then none else (c :: rest)[i]?) ∘ Nat.succ)
      = fun i => if dotRemovedAt rest i then none else rest[i]? := by
    funext i
    simp [Function.comp, dotRemovedAt_succ]
  rw [hf]
  have h0 : dotRemovedAt (c :: rest) 0 = ((c = '.') && threeDigitsNext rest) := by
    simp [dotRemovedAt]
  by_cases h : ((c = '.') && threeDigitsNext rest) = true
  · simp [h0, h]
  · simp [h0, h]

/-- The sequential global-replace of dots agrees with the position-based
description: exactly the dots followed by three or more digits go away. -/
theorem stripThousandsDots_eq_spec (cs : List Char) :
    stripThousandsDots cs = specStripDots cs := by
  induction cs with
  | nil => rfl
  | cons c rest ih =>
    rw [specStripDots_cons]
    by_cases h : ((c = '.') && threeDigitsNext rest) = true
    · simp [stripThousandsDots, h, ih]
    · simp [stripThousandsDots, h, ih]

/-- The scan for the first character-class run is the drop-then-span
decomposition. -/
theorem firstRunAfter_eq (p : Char → Bool) (cs : List Char) :
    firstRunAfter p cs =
      (match cs.dropWhile (fun c => !p c) with
       | [] => none
       | l => some (l.takeWhile p, l.dropWhile p)) := by
  induction cs with
  | nil => rfl
  | cons c rest ih =>
    by_cases h : p c = true
    · simp [firstRunAfter, h, List.dropWhile_cons]
    · simp [firstRunAfter, h, List.dropWhile_cons, ih]

/-- The suffix if-chain of parseCount agrees with the table lookup of the
claim wording, including the default 1 for an unknown character. -/
theorem scaleOf_eq_table (c : Char) :
    scaleOf (if isCountSuffix c then some c else none) =
      ((suffixScaleTable.find? (fun p => c = p.1)).map Prod.snd).getD 1 := by
  by_cases h1 : c = 'K'
  · subst h1; decide
  by_cases h2 : c = 'k'
  · subst h2; decide
  by_cases h3 : c = 'M'
  · subst h3; decide
  by_cases h4 : c = 'm'
  · subst h4; decide
  by_cases h5 : c = 'B'
  · subst h5; decide
  by_cases h6 : c = 'b'
  · subst h6; decide
  by_cases h7 : c = '万'
  · subst h7; decide
  by_cases h8 : c = '億'
  · subst h8; decide
  simp [isCountSuffix, h1, h2, h3, h4, h5, h6, h7, h8, scaleOf, suffixScaleTable,
    List.find?]

/-! ## Claim theorems -/

/-- C1 counterexample: on the purchase amount "$1.2345" the dot is
followed by four digits; the claim keeps such a dot as a decimal point,
giving floor 1.2345 = 1, but the code removes it and yields 12345. -/
theorem parseSuperchatAmount_exact_three_cex :
    (parseSuperchatAmount "$1.2345").amount = some 12345 ∧
    (jsParseFloatDD (claimStripDots (stripCommas ("1.2345".data)))).map jsFloor = some 1 ∧
    (parseSuperchatAmount "$1.2345").amount ≠
      (jsParseFloatDD (claimStripDots (stripCommas ("1.2345".data)))).map jsFloor := by
  decide

/-- C1 (amended): after commas are stripped from the matched numeric
tail, a decimal point followed by three or more digits is treated as a
thousands separator and removed, while a decimal point followed by fewer
than three digits is kept; the remaining numeric tail is floored. -/
theorem parseSuperchatAmount_dot_rule (s : String) (g1 g2 : List Char)
    (h : scanMatch s.data = some (g1, g2)) :
    (parseSuperchatAmount s).amount =
      (jsParseFloatDD (specStripDots (stripCommas g2))).map jsFloor := by
  have hs := stripThousandsDots_eq_spec (stripCommas g2)
  simp [parseSuperchatAmount, h, hs]

/-- Witness for the amended C1 theorem at the input "$1.234.56". -/
theorem parseSuperchatAmount_dot_rule_witness :
    (parseSuperchatAmount "$1.234.56").amount =
      (jsParseFloatDD (specStripDots (stripCommas ("1.234.56".data)))).map jsFloor :=
  parseSuperchatAmount_dot_rule "$1.234.56" ("$".data) ("1.234.56".data) (by decide)

/-- C2: parsing a purchase amount is total; an input that the currency
regex does not match gives amount 0 with the fallback currency JPY, and a
matched input whose trimmed symbol is not in the lookup table falls back
to JPY. -/
theorem parseSuperchatAmount_never_fails (s : String) :
    (scanMatch s.data = none → parseSuperchatAmount s = ⟨some 0, "JPY"⟩) ∧
    (∀ g1 g2, scanMatch s.data = some (g1, g2) →
      currencyLookup (String.mk (jsTrim g1)) = none →
      (parseSuperchatAmount s).currency = "JPY") := by
  constructor
  · intro h
    simp [parseSuperchatAmount, h]
  · intro g1 g2 h hlook
    simp [parseSuperchatAmount, h, hlook]

/-- Witness for C2 at the input "₿123", whose symbol is unknown. -/
theorem parseSuperchatAmount_never_fails_witness :
    (parseSuperchatAmount "₿123").currency = "JPY" :=
  (parseSuperchatAmount_never_fails "₿123").2 ("₿".data) ("123".data)
    (by decide) (by decide)

/-- C3: every response carries the id of the request it answers, and
exactly one of result and error is set: the result is present exactly when
no error is, on every method and every oracle outcome. -/
theorem handleRequest_same_id_exactly_one (env : Env) (st : SidecarState)
    (req : RpcRequest) :
    (handleRequest env st req).2.2.id = req.id ∧
    ((handleRequest env st req).2.2.result.isSome ↔
      (handleRequest env st req).2.2.error = none) := by
  rcases h : runMethod env st req with ⟨st1, tr, v | e⟩ <;> simp [handleRequest, h]

/-- C4: a request whose method is none of the eight recognized ones is
answered by the error "Unknown method: " followed by the method name, with
no result, no state change and no platform call. -/
theorem handleRequest_unknown_method (env : Env) (st : SidecarState)
    (req : RpcRequest) (h : req.method ∉ knownMethods) :
    handleRequest env st req =
      (st, [], ⟨req.id, none, some ("Unknown method: " ++ req.method)⟩) := by
  simp only [knownMethods, List.mem_cons, List.mem_singleton, not_or] at h
  obtain ⟨h1, h2, h3, h4, h5, h6, h7, h8⟩ := h
  simp [handleRequest, runMethod, h1, h2, h3, h4, h5, h6, h7, h8]

/-- Witness for C4 at the unknown method "foo". -/
theorem handleRequest_unknown_method_witness :
    handleRequest sampleEnv ⟨false, none, none⟩ ⟨1, "foo", none⟩ =
      (⟨false, none, none⟩, [], ⟨1, none, some "Unknown method: foo"⟩) :=
  handleRequest_unknown_method sampleEnv ⟨false, none, none⟩ ⟨1, "foo", none⟩
    (by decide)

/-- C5: getExactSubscriberCount on an initialized client with no stored
cookies answers with the authentication-required error, no result, no
state change, and an empty platform-call trace, so the error is produced
before any platform request is attempted. -/
theorem getExactSubscriberCount_requires_auth (env : Env) (st : SidecarState)
    (req : RpcRequest) (hm : req.method = "getExactSubscriberCount")
    (hy : st.youtube = true) (hc : st.storedCookies = none) :
    handleRequest env st req =
      (st, [], ⟨req.id, none,
        some "Authentication required for exact subscriber count"⟩) := by
  obtain ⟨i, m, ps⟩ := req
  obtain ⟨y, ck, lc⟩ := st
  have hm2 : m = "getExactSubscriberCount" := hm
  have hy2 : y = true := hy
  have hc2 : ck = none := hc
  subst hm2; subst hy2; subst hc2
  rfl

/-- Witness for C5 on an initialized, unauthenticated state. -/
theorem getExactSubscriberCount_requires_auth_witness :
    handleRequest sampleEnv ⟨true, none, none⟩ ⟨2, "getExactSubscriberCount", none⟩ =
      (⟨true, none, none⟩, [], ⟨2, none,
        some "Authentication required for exact subscriber count"⟩) :=
  getExactSubscriberCount_requires_auth sampleEnv ⟨true, none, none⟩
    ⟨2, "getExactSubscriberCount", none⟩ rfl rfl rfl

/-- C6 counterexample: the input "." contains no digit, yet parseCount
yields NaN (none), not 0, because the regex matches the lone dot and
parseFloat of "." is NaN. -/
theorem parseCount_dot_cex :
    parseCount "." = none ∧ parseCount "." ≠ some 0 ∧
    (".".data.any Char.isDigit) = false := by
  decide

/-- C6 (amended): parseCount strips commas and takes the first run of
digit-or-dot characters; it returns floor of n times scale, where n is the
JavaScript decimal reading of the run and scale comes from the suffix
table (1 when absent); a string with no digit-or-dot character yields 0,
while a matched run with no digit (such as a lone dot) yields NaN rather
than 0. -/
theorem parseCount_characterization (s : String) : parseCount s = parseCountSpec s := by
  simp only [parseCount, parseCountSpec]
  rw [firstRunAfter_eq]
  cases h : (stripCommas s.data).dropWhile (fun c => !isDigitDot c) with
  | nil => rfl
  | cons c l =>
    simp only
    cases h2 : (c :: l).dropWhile isDigitDot with
    | nil => simp [scaleOf]
    | cons d l2 => rw [scaleOf_eq_table d]

/-- C7: a getLiveInfo or startLiveChat request with a missing or empty
videoId is answered by the error "videoId is required" with no result, no
state change and an empty platform-call trace. -/
theorem videoId_required_rejected_early (env : Env) (st : SidecarState)
    (req : RpcRequest)
    (hm : req.method = "getLiveInfo" ∨ req.method = "startLiveChat")
    (hv : paramVideoId req.params = "") :
    handleRequest env st req = (st, [], ⟨req.id, none, some "videoId is required"⟩) := by
  obtain ⟨i, m, ps⟩ := req
  rcases hm with hm | hm <;> (have hm2 : m = _ := hm; subst hm2) <;>
    simp [handleRequest, runMethod, hv]

/-- Witness for C7: getLiveInfo with no params object at all. -/
theorem videoId_required_rejected_early_witness :
    handleRequest sampleEnv ⟨true, none, none⟩ ⟨3, "getLiveInfo", none⟩ =
      (⟨true, none, none⟩, [], ⟨3, none, some "videoId is required"⟩) :=
  videoId_required_rejected_early sampleEnv ⟨true, none, none⟩
    ⟨3, "getLiveInfo", none⟩ (Or.inl rfl) rfl

/-- C8: stopLiveChat always leaves no live-chat instance and is a pure
no-op when none was active; startLiveChat leaves either no instance or
exactly the one for the requested video, and when an instance was active
its stop is the first platform action, before the new chat is created. -/
theorem liveChat_at_most_one_instance (env : Env) (st : SidecarState)
    (req : RpcRequest) :
    (req.method = "stopLiveChat" →
      (handleRequest env st req).1.liveChatInstance = none ∧
      (st.liveChatInstance = none →
        (handleRequest env st req).1 = st ∧ (handleRequest env st req).2.1 = [])) ∧
    (req.method = "startLiveChat" → st.youtube = true →
      paramVideoId req.params ≠ "" →
      ((handleRequest env st req).1.liveChatInstance = none ∨
       (handleRequest env st req).1.liveChatInstance = some (paramVideoId req.params)) ∧
      (∀ v, st.liveChatInstance = some v →
        (handleRequest env st req).2.1.head? = some (.chatStop v))) := by
  obtain ⟨i, m, ps⟩ := req
  obtain ⟨y, ck, lc⟩ := st
  constructor
  · intro hm
    have hm2 : m = "stopLiveChat" := hm
    subst hm2
    cases lc with
    | none => exact ⟨rfl, fun _ => ⟨rfl, rfl⟩⟩
    | some v => exact ⟨rfl, fun h => by cases h⟩
  · intro hm hy hv
    have hm2 : m = "startLiveChat" := hm
    have hy2 : y = true := hy
    subst hm2; subst hy2
    cases lc with
    | none =>
      cases hI : env.getInfo (paramVideoId ps) with
      | error e =>
        refine ⟨Or.inl ?_, fun v h => ?_⟩
        · simp [handleRequest, runMethod, hv, hI]
        · cases h
      | ok info =>
        refine ⟨Or.inr ?_, fun v h => ?_⟩
        · simp [handleRequest, runMethod, hv, hI]
        · cases h
    | some w =>
      cases hI : env.getInfo (paramVideoId ps) with
      | error e =>
        refine ⟨Or.inl ?_, fun v h => ?_⟩
        · simp [handleRequest, runMethod, hv, hI]
        · have hw : w = v := by cases h; rfl
          subst hw
          simp [handleRequest, runMethod, hv, hI]
      | ok info =>
        refine ⟨Or.inr ?_, fun v h => ?_⟩
        · simp [handleRequest, runMethod, hv, hI]
        · have hw : w = v := by cases h; rfl
          subst hw
          simp [handleRequest, runMethod, hv, hI]

/-- Witness for C8: starting a chat for "new" while "old" is active stops
"old" first, and afterwards at most the new instance is held. -/
theorem liveChat_at_most_one_instance_witness :
    ((handleRequest sampleEnv ⟨true, none, some "old"⟩
        ⟨4, "startLiveChat", some ⟨some "new", none, none⟩⟩).1.liveChatInstance = none ∨
     (handleRequest sampleEnv ⟨true, none, some "old"⟩
        ⟨4, "startLiveChat", some ⟨some "new", none, none⟩⟩).1.liveChatInstance =
       some "new") ∧
    (handleRequest sampleEnv ⟨true, none, some "old"⟩
        ⟨4, "startLiveChat", some ⟨some "new", none, none⟩⟩).2.1.head? =
      some (.chatStop "old") := by
  have h := (liveChat_at_most_one_instance sampleEnv ⟨true, none, some "old"⟩
    ⟨4, "startLiveChat", some ⟨some "new", none, none⟩⟩).2 rfl rfl (by decide)
  exact ⟨h.1, h.2 "old" rfl⟩

/-- C9: a getSubscriberCount request on an initialized client with a
nonempty channelId never carries an error: the response is always a count,
and it degrades to count 0 when the channel fetch fails or when no
subscriber text is found in the header rows or (truthily) in the legacy
metadata field. -/
theorem getSubscriberCount_never_errors (env : Env) (st : SidecarState)
    (req : RpcRequest) (hm : req.method = "getSubscriberCount")
    (hy : st.youtube = true) (hc : paramChannelId req.params ≠ "") :
    (handleRequest env st req).2.2.error = none ∧
    (handleRequest env st req).2.2.result =
      some (.countResult (subCountOf env (paramChannelId req.params))) ∧
    (∀ e, env.getChannel (paramChannelId req.params) = .error e →
      subCountOf env (paramChannelId req.params) = some 0) ∧
    (∀ ch, env.getChannel (paramChannelId req.params) = .ok ch →
      findSubText (ch.metadataRows.getD []) = none →
      (ch.subscriberCountText = none ∨ ch.subscriberCountText = some "") →
      subCountOf env (paramChannelId req.params) = some 0) := by
  obtain ⟨i, m, ps⟩ := req
  obtain ⟨y, ck, lc⟩ := st
  have hm2 : m = "getSubscriberCount" := hm
  have hy2 : y = true := hy
  subst hm2; subst hy2
  refine ⟨?_, ?_, ?_, ?_⟩
  · simp [handleRequest, runMethod, hc]
  · simp [handleRequest, runMethod, hc]
  · intro e he
    simp [subCountOf, he]
  · intro ch hch hfind hleg
    rcases hleg with h | h <;> simp [subCountOf, hch, hfind, h]

/-- Witness for C9: an initialized client whose channel fetch fails still
answers with result count 0 and no error. -/
theorem getSubscriberCount_never_errors_witness :
    (handleRequest sampleEnv ⟨true, none, none⟩
        ⟨7, "getSubscriberCount", some ⟨none, some "UC1", none⟩⟩).2.2.error = none ∧
    (handleRequest sampleEnv ⟨true, none, none⟩
        ⟨7, "getSubscriberCount", some ⟨none, some "UC1", none⟩⟩).2.2.result =
      some (.countResult (some 0)) := by
  have h := getSubscriberCount_never_errors sampleEnv ⟨true, none, none⟩
    ⟨7, "getSubscriberCount", some ⟨none, some "UC1", none⟩⟩ rfl rfl (by decide)
  refine ⟨h.1, ?_⟩
  have h0 : subCountOf sampleEnv (paramChannelId (some ⟨none, some "UC1", none⟩)) = some 0 :=
    h.2.2.1 "network unavailable" rfl
  rw [h.2.1, h0]

/-- C10: a line that failed JSON decoding produces no response and does
not disturb the processing of the other lines: the request loop behaves as
if the malformed line were absent, wherever it sits in the input. -/
theorem malformed_line_skipped (env : Env) (st : SidecarState)
    (xs ys : List (Option RpcRequest)) :
    processLines env st (xs ++ none :: ys) = processLines env st (xs ++ ys) := by
  induction xs generalizing st with
  | nil => simp [processLines]
  | cons a xs ih =>
    cases a with
    | none => simpa [processLines] using ih st
    | some req =>
      simp only [List.cons_append, processLines]
      rcases h : handleRequest env st req with ⟨st1, tr, resp⟩
      simp [ih st1]

end Sidecar
